import Mathlib

/-!
Verification development for the tile-content streaming pipeline:
the composite-tile container decoder (`Composite3DTileContent.js`) and the
vector-geometry content object (`Vector3DTileGeometry.js`).

Conventions of the shallow embedding:
* Binary buffers are `List Nat` of byte values; `DataView.getUint32(o, true)`
  is little-endian recomposition of four bytes.
* JavaScript numbers that are only stored and moved (matrix entries, packed
  doubles, positions) are modelled as `Int`; counts read back from packed
  buffers are converted with `Int.toNat` where the code uses them as loop
  bounds.
* Typed arrays are modelled as `TArr`: an allocation identifier paired with
  the element list.  `slice()` allocates a fresh identifier with the same
  elements, so "copy" versus "alias" is the identity of the `id` field.
* `undefined`-able fields are `Option`; asynchronous promise settlement is
  modelled by explicit `deliverResolve` / `deliverReject` steps that run the
  `then` / `catch` handler bodies.
-/

namespace Cesium

/-- A Cartesian3 value (components modelled as integers; only equality and
distance comparisons matter for the embedded code paths). -/
structure Cart3 where
  x : Int
  y : Int
  z : Int
deriving DecidableEq

/-- Squared Euclidean distance.  `Cartesian3.distance` is the square root of
this; since the source only ever compares distances and the square root is
strictly monotone, the squared distance is comparison-equivalent. -/
def distSq (a b : Cart3) : Int :=
  (a.x - b.x) * (a.x - b.x) + (a.y - b.y) * (a.y - b.y) + (a.z - b.z) * (a.z - b.z)

/-- `DataView.getUint32(byteOffset, true)`: little-endian uint32 read.
Out-of-range bytes read as 0. -/
def getUint32 (buf : List Nat) (byteOffset : Nat) : Nat :=
  buf.getD byteOffset 0 + 256 * buf.getD (byteOffset + 1) 0 +
    65536 * buf.getD (byteOffset + 2) 0 + 16777216 * buf.getD (byteOffset + 3) 0

/-- `getMagic(uint8Array, byteOffset)`: the 4-byte tag starting at
`byteOffset` (the source renders it as an ASCII string; the byte list is the
same information). -/
def getMagic (buf : List Nat) (byteOffset : Nat) : List Nat :=
  [buf.getD byteOffset 0, buf.getD (byteOffset + 1) 0,
   buf.getD (byteOffset + 2) 0, buf.getD (byteOffset + 3) 0]

/-- The fatal parse errors thrown by `Composite3DTileContent.fromTileType`
(`RuntimeError`s in the source; each carries the datum its message names). -/
inductive CompError where
  | unsupportedVersion (version : Nat)
  | unknownTileType (tag : List Nat)
deriving DecidableEq

/-- Byte offset of child `j` in the child sequence that begins at `start`:
each child's own uint32 byte length sits 8 bytes past the child's start
(after its 4-byte magic and 4-byte version), and the parent advances by
exactly that length. -/
def childOffset (buf : List Nat) (start : Nat) : Nat → Nat
  | 0 => start
  | j + 1 => childOffset buf (start + getUint32 buf (start + 8)) j

theorem childOffset_succ (buf : List Nat) (start j : Nat) :
    childOffset buf start (j + 1) =
      childOffset buf (start + getUint32 buf (start + 8)) j := rfl

/-- The child loop of `Composite3DTileContent.fromTileType` (source lines
260–289).  For each of `n` children: read the child's magic tag, read its
self-declared byte length at `byteOffset + 8`, look the tag up in the
factory registry, invoke the factory at the child's offset, and advance by
the declared length; an unregistered tag throws `unknownTileType` and aborts
the loop.  The first component is the log of factory invocations
`(tag, byteOffset)` actually performed, in order. -/
def parseChildren {α : Type} (factory : List Nat → Option (Nat → α)) (buf : List Nat) :
    Nat → Nat → List (List Nat × Nat) × Except CompError (List α)
  | 0, _ => ([], .ok [])
  | n + 1, byteOffset =>
    let tileType := getMagic buf byteOffset
    let tileByteLength := getUint32 buf (byteOffset + 8)
    match factory tileType with
    | none => ([], .error (.unknownTileType tileType))
    | some contentFactory =>
      match parseChildren factory buf n (byteOffset + tileByteLength) with
      | (log, .ok children) =>
        ((tileType, byteOffset) :: log, .ok (contentFactory byteOffset :: children))
      | (log, .error e) => ((tileType, byteOffset) :: log, .error e)

/-- Composite content state: the ordered child contents and the cached
`_ready` flag (constructor sets `_ready = false`). -/
structure CompositeState (α : Type) where
  contents : List α
  ready : Bool
deriving DecidableEq

/-- The `Composite3DTileContent` constructor: an undefined child list is
replaced by the empty list, `_ready` starts false. -/
def Composite3DTileContent {α : Type} (contents : Option (List α)) : CompositeState α :=
  { contents := contents.getD [], ready := false }

/-- `Composite3DTileContent.fromTileType` (source lines 218–299): skip magic,
check `version === 1` at `byteOffset + 4`, skip the total byte length, read
the child count at `byteOffset + 12`, then run the child loop from
`byteOffset + 16` and construct the composite from the resolved children.
The invocation log of the child loop is returned alongside. -/
def fromTileType {α : Type} (factory : List Nat → Option (Nat → α)) (buf : List Nat)
    (byteOffset : Nat) : List (List Nat × Nat) × Except CompError (CompositeState α) :=
  let version := getUint32 buf (byteOffset + 4)
  if version ≠ 1 then ([], .error (.unsupportedVersion version))
  else
    let tilesLength := getUint32 buf (byteOffset + 12)
    match parseChildren factory buf tilesLength (byteOffset + 16) with
    | (log, .ok innerContents) => (log, .ok (Composite3DTileContent (some innerContents)))
    | (log, .error e) => (log, .error e)

/-- The body of `Composite3DTileContent.prototype.update` (source lines
336–348) as a transition on the cached `_ready` flag: `ready` is the
conjunction of the children's post-update ready flags, and `_ready` is set
once it is observed true. -/
def updateReady (curReady : Bool) (childReady : List Bool) : Bool :=
  let ready := childReady.foldl (fun r b => r && b) true
  if !curReady && ready then true else curReady

/-- One `update` call on a composite: every child is updated (its post-update
readiness given by `childReadyAfterUpdate`), then the cached flag advances. -/
def CompositeState.update {α : Type} (c : CompositeState α)
    (childReadyAfterUpdate : α → Bool) : CompositeState α :=
  { c with ready := updateReady c.ready (c.contents.map childReadyAfterUpdate) }

/-- Iterated `update` calls: frame `k` supplies the children's post-update
ready flags for that frame. -/
def runUpdates (ready : Bool) (frames : List (List Bool)) : Bool :=
  frames.foldl updateReady ready

/-- `Composite3DTileContent.prototype.pick` (source lines 360–389).
`reports` is, per child, the intersection the child's `pick` reports for the
given ray; `result` is the caller's optional scratch object, modelled as a
cell.  Per the result-parameter convention of the surrounding code base, a
child that reports a hit stores it into the scratch object (when one was
passed) and returns it.  The source tracks the minimum distance in local
variables `intersection` / `minDistance` but finally returns `result`. -/
def compositePick (ready : Bool) (origin : Cart3) (reports : List (Option Cart3))
    (result : Option Cart3) : Option Cart3 :=
  if !ready then none
  else
    let st := reports.foldl
      (fun (s : Bool × Option Int × Option Cart3) candidate =>
        match candidate with
        | none => s
        | some p =>
          let cell := s.2.2.map (fun _ => p)
          let distance := distSq origin p
          match s.2.1 with
          | none => (true, some distance, cell)
          | some m =>
            if distance < m then (true, some distance, cell) else (s.1, some m, cell))
      (false, none, result)
    if st.1 then st.2.2 else none

theorem parseChildren_ok {α : Type} (factory : List Nat → Option (Nat → α)) (buf : List Nat) :
    ∀ (n start : Nat) (F : Nat → Nat → α),
      (∀ j, j < n → factory (getMagic buf (childOffset buf start j)) = some (F j)) →
      parseChildren factory buf n start =
        ((List.range n).map
            (fun j => (getMagic buf (childOffset buf start j), childOffset buf start j)),
         .ok ((List.range n).map (fun j => F j (childOffset buf start j)))) := by
  intro n
  induction n with
  | zero => intro start F _; simp [parseChildren]
  | succ n ih =>
    intro start F h
    have h0 : factory (getMagic buf start) = some (F 0) := h 0 (Nat.succ_pos n)
    have hrec := ih (start + getUint32 buf (start + 8)) (fun j => F (j + 1))
      (fun j hj => h (j + 1) (Nat.succ_lt_succ hj))
    simp only [parseChildren, h0, hrec]
    refine congrArg₂ Prod.mk ?_ ?_
    · rw [List.range_succ_eq_map, List.map_cons, List.map_map]
      rfl
    · rw [List.range_succ_eq_map, List.map_cons, List.map_map]
      rfl

theorem parseChildren_unknown {α : Type} (factory : List Nat → Option (Nat → α))
    (buf : List Nat) :
    ∀ (i n start : Nat), i < n →
      (∀ j, j < i → (factory (getMagic buf (childOffset buf start j))).isSome = true) →
      factory (getMagic buf (childOffset buf start i)) = none →
      parseChildren factory buf n start =
        ((List.range i).map
            (fun j => (getMagic buf (childOffset buf start j), childOffset buf start j)),
         .error (.unknownTileType (getMagic buf (childOffset buf start i)))) := by
  intro i
  induction i with
  | zero =>
    intro n start hn _ hmiss
    match n, hn with
    | n + 1, _ =>
      simp only [childOffset] at hmiss
      simp [parseChildren, childOffset, hmiss]
  | succ i ih =>
    intro n start hn hbefore hmiss
    match n, hn with
    | n + 1, hn =>
      have h0 : (factory (getMagic buf start)).isSome = true := by
        have := hbefore 0 (Nat.succ_pos i)
        simpa only [childOffset] using this
      obtain ⟨f, hf⟩ := Option.isSome_iff_exists.mp h0
      have hrec := ih n (start + getUint32 buf (start + 8)) (Nat.lt_of_succ_lt_succ hn)
        (fun j hj => hbefore (j + 1) (Nat.succ_lt_succ hj))
        hmiss
      simp only [parseChildren, hf, hrec]
      refine congrArg₂ Prod.mk ?_ rfl
      rw [List.range_succ_eq_map, List.map_cons, List.map_map]
      rfl

theorem childOffset_step (buf : List Nat) :
    ∀ (k start : Nat),
      childOffset buf start (k + 1) =
        childOffset buf start k + getUint32 buf (childOffset buf start k + 8) := by
  intro k
  induction k with
  | zero => intro start; rfl
  | succ k ih =>
    intro start
    rw [childOffset_succ, ih, ← childOffset_succ]

/-- C6: for every valid composite buffer (version 1, every child tag
registered) declaring `n` children, `fromTileType` succeeds; the resulting
composite's `contents` (its `innerContents`) has length `n` and lists the
factory results in container order at the sequential child offsets; the
invocation log shows child `j` parsed at `childOffset … j`; and each child's
offset advances by exactly the byte length the child declares 8 bytes past
its own start (after its magic and version). -/
theorem fromTileType_children_in_order {α : Type} (factory : List Nat → Option (Nat → α))
    (buf : List Nat) (byteOffset n : Nat) (F : Nat → Nat → α)
    (hver : getUint32 buf (byteOffset + 4) = 1)
    (hcount : getUint32 buf (byteOffset + 12) = n)
    (hfac : ∀ j, j < n →
      factory (getMagic buf (childOffset buf (byteOffset + 16) j)) = some (F j)) :
    fromTileType factory buf byteOffset =
      ((List.range n).map (fun j =>
          (getMagic buf (childOffset buf (byteOffset + 16) j),
           childOffset buf (byteOffset + 16) j)),
       .ok (Composite3DTileContent (some ((List.range n).map
          (fun j => F j (childOffset buf (byteOffset + 16) j))))))
    ∧ (∀ (log : List (List Nat × Nat)) (comp : CompositeState α),
        fromTileType factory buf byteOffset = (log, .ok comp) → comp.contents.length = n)
    ∧ (∀ k, childOffset buf (byteOffset + 16) (k + 1) =
        childOffset buf (byteOffset + 16) k +
          getUint32 buf (childOffset buf (byteOffset + 16) k + 8)) := by
  have hmain : fromTileType factory buf byteOffset =
      ((List.range n).map (fun j =>
          (getMagic buf (childOffset buf (byteOffset + 16) j),
           childOffset buf (byteOffset + 16) j)),
       .ok (Composite3DTileContent (some ((List.range n).map
          (fun j => F j (childOffset buf (byteOffset + 16) j)))))) := by
    unfold fromTileType
    rw [hver, hcount]
    simp only [parseChildren_ok factory buf n (byteOffset + 16) F hfac]
    rfl
  refine ⟨hmain, ?_, fun k => childOffset_step buf k (byteOffset + 16)⟩
  intro log comp heq
  rw [hmain] at heq
  have : comp = Composite3DTileContent (some ((List.range n).map
      (fun j => F j (childOffset buf (byteOffset + 16) j)))) := by
    have := congrArg Prod.snd heq
    simpa using this.symm
  rw [this]
  simp [Composite3DTileContent]

def c6Buf : List Nat :=
  [99, 109, 112, 116] ++ [1, 0, 0, 0] ++ [56, 0, 0, 0] ++ [2, 0, 0, 0] ++
  ([98, 51, 100, 109] ++ [1, 0, 0, 0] ++ [12, 0, 0, 0]) ++
  ([98, 51, 100, 109] ++ [1, 0, 0, 0] ++ [12, 0, 0, 0])

def c6Factory : List Nat → Option (Nat → Nat) :=
  fun tag => if tag = [98, 51, 100, 109] then some (fun byteOffset => byteOffset) else none

/-- Witness for C6 at a concrete two-child composite buffer. -/
theorem fromTileType_children_in_order_witness :
    fromTileType c6Factory c6Buf 0 =
      ((List.range 2).map (fun j =>
          (getMagic c6Buf (childOffset c6Buf (0 + 16) j), childOffset c6Buf (0 + 16) j)),
       .ok (Composite3DTileContent (some ((List.range 2).map
          (fun j => (fun _ byteOffset => byteOffset) j (childOffset c6Buf (0 + 16) j))))))
    ∧ (∀ (log : List (List Nat × Nat)) (comp : CompositeState Nat),
        fromTileType c6Factory c6Buf 0 = (log, .ok comp) → comp.contents.length = 2)
    ∧ (∀ k, childOffset c6Buf (0 + 16) (k + 1) =
        childOffset c6Buf (0 + 16) k + getUint32 c6Buf (childOffset c6Buf (0 + 16) k + 8)) :=
  fromTileType_children_in_order c6Factory c6Buf 0 2 (fun _ byteOffset => byteOffset)
    (by decide) (by decide)
    (by
      intro j hj
      have hj2 : j < 2 := hj
      interval_cases j <;> rfl)

/-- C5: a composite buffer whose child at position `i` carries a tag absent
from the factory registry fails with `unknownTileType` naming that tag, and
the invocation log contains exactly the children at positions `j < i`: no
factory is invoked at position `i` or any later sibling. -/
theorem fromTileType_unknown_tag_aborts {α : Type} (factory : List Nat → Option (Nat → α))
    (buf : List Nat) (byteOffset n i : Nat)
    (hver : getUint32 buf (byteOffset + 4) = 1)
    (hcount : getUint32 buf (byteOffset + 12) = n)
    (hi : i < n)
    (hbefore : ∀ j, j < i →
      (factory (getMagic buf (childOffset buf (byteOffset + 16) j))).isSome = true)
    (hmiss : factory (getMagic buf (childOffset buf (byteOffset + 16) i)) = none) :
    fromTileType factory buf byteOffset =
      ((List.range i).map (fun j =>
          (getMagic buf (childOffset buf (byteOffset + 16) j),
           childOffset buf (byteOffset + 16) j)),
       .error (.unknownTileType (getMagic buf (childOffset buf (byteOffset + 16) i)))) := by
  unfold fromTileType
  rw [hver, hcount]
  simp only [parseChildren_unknown factory buf i n (byteOffset + 16) hi hbefore hmiss]
  simp

def c5Buf : List Nat :=
  [99, 109, 112, 116] ++ [1, 0, 0, 0] ++ [68, 0, 0, 0] ++ [3, 0, 0, 0] ++
  ([98, 51, 100, 109] ++ [1, 0, 0, 0] ++ [12, 0, 0, 0]) ++
  ([120, 120, 120, 120] ++ [1, 0, 0, 0] ++ [12, 0, 0, 0]) ++
  ([98, 51, 100, 109] ++ [1, 0, 0, 0] ++ [12, 0, 0, 0])

/-- Witness for C5: a three-child buffer whose middle child's tag is not
registered aborts at position 1 having invoked only the factory for child 0. -/
theorem fromTileType_unknown_tag_aborts_witness :
    fromTileType c6Factory c5Buf 0 =
      ((List.range 1).map (fun j =>
          (getMagic c5Buf (childOffset c5Buf (0 + 16) j), childOffset c5Buf (0 + 16) j)),
       .error (.unknownTileType (getMagic c5Buf (childOffset c5Buf (0 + 16) 1)))) :=
  fromTileType_unknown_tag_aborts c6Factory c5Buf 0 3 1 (by decide) (by decide) (by decide)
    (by
      intro j hj
      have hj2 : j < 1 := hj
      interval_cases j
      rfl)
    (by rfl)

/-- C1 (divergence witness): `Composite3DTileContent.prototype.pick` computes
the minimum-distance candidate into dead locals but returns the `result`
scratch parameter.  With two reporting children where the first is closer,
the returned point is the second (last) child's hit, not the minimal one;
and with no scratch object passed, the function returns `undefined` even
though a child reported an intersection. -/
theorem compositePick_returns_last_hit_not_closest :
    compositePick true ⟨0, 0, 0⟩ [some ⟨1, 0, 0⟩, some ⟨2, 0, 0⟩] (some ⟨9, 9, 9⟩) =
        some ⟨2, 0, 0⟩
    ∧ distSq ⟨0, 0, 0⟩ ⟨1, 0, 0⟩ < distSq ⟨0, 0, 0⟩ ⟨2, 0, 0⟩
    ∧ compositePick true ⟨0, 0, 0⟩ [some ⟨1, 0, 0⟩] none = none := by
  refine ⟨rfl, by decide, rfl⟩

/-- C7: every composite `update` recomputes the frame's aggregate readiness
as the conjunction (fold with `&&`) of all children's post-update ready
flags, and the cached `_ready` flag is monotone: from a ready composite any
sequence of further updates — children toggling unready included — leaves
`_ready` true. -/
theorem composite_update_ready_and_monotone (c : Bool) (l : List Bool)
    (frames : List (List Bool)) :
    updateReady c l = (c || l.foldl (fun r b => r && b) true)
    ∧ runUpdates true frames = true := by
  constructor
  · cases c with
    | false =>
      cases h : l.foldl (fun r b => r && b) true <;> simp [updateReady, h]
    | true => simp [updateReady]
  · induction frames with
    | nil => rfl
    | cons a t ih =>
      show runUpdates (updateReady true a) t = true
      rw [show updateReady true a = true from rfl]
      exact ih

/-- C10: a composite constructed with an undefined or empty child list holds
the empty child list, and its very first `update` call sets `_ready` to true
(the conjunction over zero children is vacuously true). -/
theorem composite_empty_contents_first_update_ready {α : Type} (o : Option (List α))
    (f : α → Bool) (h : o = none ∨ o = some []) :
    (Composite3DTileContent o).contents = []
    ∧ (CompositeState.update (Composite3DTileContent o) f).ready = true := by
  rcases h with h | h <;> subst h <;> exact ⟨rfl, rfl⟩

/-- Witness for C10 at a concrete undefined child list. -/
theorem composite_empty_contents_first_update_ready_witness :
    (Composite3DTileContent (none : Option (List Nat))).contents = []
    ∧ (CompositeState.update (Composite3DTileContent (none : Option (List Nat)))
        (fun _ => false)).ready = true :=
  composite_empty_contents_first_update_ready none (fun _ => false) (Or.inl rfl)

/-! ## Vector3DTileGeometry -/

/-- A typed array: an allocation identifier plus the element list.  `slice()`
produces a fresh identifier with equal elements, so aliasing is identity of
`id`. -/
structure TArr where
  id : Nat
  data : List Int
deriving DecidableEq

/-- A `BoundingSphere` (packed length 4: center then radius). -/
structure BoundingSphereM where
  center : Cart3
  radius : Int
deriving DecidableEq

/-- A `Color` (packed length 4). -/
structure ColorM where
  red : Int
  green : Int
  blue : Int
  alpha : Int
deriving DecidableEq

/-- A `Vector3DTileBatch` record produced by `unpackBuffer`. -/
structure Vector3DTileBatch where
  color : ColorM
  offset : Int
  count : Int
  batchIds : List Int
deriving DecidableEq

/-- The argument record handed to the `Vector3DTilePrimitive` constructor in
`finishPrimitive` (the primitive itself is an external collaborator; the
embedding records what was passed to it). -/
structure Vector3DTilePrimitive where
  batchTable : Option (List Nat)
  positions : Option (List Int)
  batchIds : Option (List Nat)
  vertexBatchIds : Option (List Nat)
  indices : Option (Nat × List Nat)
  indexOffsets : Option (List Nat)
  indexCounts : Option (List Nat)
  batchedIndices : Option (List Vector3DTileBatch)
  boundingVolume : Option BoundingSphereM
  boundingVolumes : Option (List BoundingSphereM)
  center : Option Cart3
deriving DecidableEq

/-- The `Vector3DTileGeometry` instance state.  Fields mirror the `_`-named
instance fields of the source; `promiseDefined` stands for
`defined(this._promise)` and `verticesPromiseDefined` for
`defined(this._verticesPromise)`.  `sphere` is the stray field the source
writes at line 258 (`geometries._sphere = spheres.slice()`); it does not
exist before that assignment, modelled as `none`.  `destroyed` is the flag
`destroyObject` installs, read through `isDestroyed()`.  `fresh` seeds the
allocation identifiers handed out by `slice()` (embedding bookkeeping, not a
source field). -/
structure Vector3DTileGeometry where
  boxes : Option TArr
  boxBatchIds : Option TArr
  cylinders : Option TArr
  cylinderBatchIds : Option TArr
  ellipsoids : Option TArr
  ellipsoidBatchIds : Option TArr
  spheres : Option TArr
  sphereBatchIds : Option TArr
  sphere : Option TArr
  modelMatrix : Option (List Int)
  batchTable : Option (List Nat)
  boundingVolume : Option BoundingSphereM
  center : Option Cart3
  boundingVolumes : Option (List BoundingSphereM)
  batchedIndices : Option (List Vector3DTileBatch)
  indices : Option (Nat × List Nat)
  indexOffsets : Option (List Nat)
  indexCounts : Option (List Nat)
  positions : Option (List Int)
  vertexBatchIds : Option (List Nat)
  batchIds : Option (List Nat)
  batchTableColors : Option TArr
  packedBuffer : Option (List Int)
  ready : Bool
  promiseDefined : Bool
  error : Option Nat
  verticesPromiseDefined : Bool
  primitive : Option Vector3DTilePrimitive
  destroyed : Bool
  fresh : Nat
deriving DecidableEq

/-- Constructor options for `Vector3DTileGeometry` (batch table entries are
the per-batch-id packed RGBA colors returned by
`batchTable.getColor(i).toRgba()`). -/
structure VGOptions where
  boxes : Option TArr := none
  boxBatchIds : Option TArr := none
  cylinders : Option TArr := none
  cylinderBatchIds : Option TArr := none
  ellipsoids : Option TArr := none
  ellipsoidBatchIds : Option TArr := none
  spheres : Option TArr := none
  sphereBatchIds : Option TArr := none
  center : Option Cart3 := none
  modelMatrix : Option (List Int) := none
  batchTable : Option (List Nat) := none
  boundingVolume : Option BoundingSphereM := none
  fresh : Nat := 0

/-- The `Vector3DTileGeometry(options)` constructor (source lines 34–100):
raw arrays and collaborators are stored, `_center` falls back to the
bounding volume's center and then to `Cartesian3.ZERO`, every derived field
starts undefined, `_ready` false. -/
def Vector3DTileGeometry.init (options : VGOptions) : Vector3DTileGeometry where
  boxes := options.boxes
  boxBatchIds := options.boxBatchIds
  cylinders := options.cylinders
  cylinderBatchIds := options.cylinderBatchIds
  ellipsoids := options.ellipsoids
  ellipsoidBatchIds := options.ellipsoidBatchIds
  spheres := options.spheres
  sphereBatchIds := options.sphereBatchIds
  sphere := none
  modelMatrix := options.modelMatrix
  batchTable := options.batchTable
  boundingVolume := options.boundingVolume
  center :=
    match options.center, options.boundingVolume with
    | some c, _ => some c
    | none, some bv => some bv.center
    | none, none => some ⟨0, 0, 0⟩
  boundingVolumes := none
  batchedIndices := none
  indices := none
  indexOffsets := none
  indexCounts := none
  positions := none
  vertexBatchIds := none
  batchIds := none
  batchTableColors := none
  packedBuffer := none
  ready := false
  promiseDefined := false
  error := none
  verticesPromiseDefined := false
  primitive := none
  destroyed := false
  fresh := options.fresh

/-- `packBuffer(geometries)` (source lines 160–171): a fixed-layout
double-precision buffer holding the RTC center's 3 components immediately
followed by the model matrix's 16 components. -/
def packBuffer (center : Cart3) (modelMatrix : List Int) : List Int :=
  [center.x, center.y, center.z] ++ modelMatrix

/-- Modelled from the spec: the worker-side context unpack (the
`createVectorTileGeometries` worker is not part of the examined sources).
Per §4.3 it reads back, at double granularity, the 3 center components and
then the 16 matrix components, reversing `packBuffer` byte-for-byte. -/
def unpackContext (buf : List Int) : Cart3 × List Int :=
  (⟨buf.getD 0 0, buf.getD 1 0, buf.getD 2 0⟩, (buf.drop 3).take 16)

/-- Reader for the bounding-volume records of `unpackBuffer` (each record is
`BoundingSphere.packedLength = 4` numbers: center then radius).  Returns the
records and the offset past them. -/
def readBoundingSpheres (buf : List Int) (off : Nat) : Nat → List BoundingSphereM × Nat
  | 0 => ([], off)
  | k + 1 =>
    let bv : BoundingSphereM :=
      ⟨⟨buf.getD off 0, buf.getD (off + 1) 0, buf.getD (off + 2) 0⟩, buf.getD (off + 3) 0⟩
    let rest := readBoundingSpheres buf (off + 4) k
    (bv :: rest.1, rest.2)

/-- Reader for one batch-id list inside a batched-indices record. -/
def readBatchIdList (buf : List Int) (off : Nat) : Nat → List Int × Nat
  | 0 => ([], off)
  | k + 1 =>
    let rest := readBatchIdList buf (off + 1) k
    (buf.getD off 0 :: rest.1, rest.2)

/-- Reader for the batched-indices records of `unpackBuffer`: each record is
a `Color` (packed length 4), an index offset, an index count, a batch-id
count and that many batch ids. -/
def readBatchedIndices (buf : List Int) (off : Nat) : Nat → List Vector3DTileBatch × Nat
  | 0 => ([], off)
  | j + 1 =>
    let color : ColorM :=
      ⟨buf.getD off 0, buf.getD (off + 1) 0, buf.getD (off + 2) 0, buf.getD (off + 3) 0⟩
    let indexOffset := buf.getD (off + 4) 0
    let count := buf.getD (off + 5) 0
    let len := (buf.getD (off + 6) 0).toNat
    let ids := readBatchIdList buf (off + 7) len
    let rest := readBatchedIndices buf ids.2 j
    (⟨color, indexOffset, count, ids.1⟩ :: rest.1, rest.2)

/-- `unpackBuffer(geometries, packedBuffer)` (source lines 173–211): reads
the index element width, the bounding-volume count and records, then the
batched-indices count and records.  The field assignments the source
performs are done by the caller (`deliverResolve`). -/
def unpackBuffer (packed : List Int) :
    Int × List BoundingSphereM × List Vector3DTileBatch :=
  let indicesBytesPerElement := packed.getD 0 0
  let numBVS := (packed.getD 1 0).toNat
  let bvs := readBoundingSpheres packed 2 numBVS
  let numBatchedIndices := (packed.getD bvs.2 0).toNat
  let bis := readBatchedIndices packed (bvs.2 + 1) numBatchedIndices
  (indicesBytesPerElement, bvs.1, bis.1)

/-- Result of copying one shape kind in the packing step: the (possibly
fresh) parameter array and batch-id array, the next free allocation id, and
this kind's contribution to the color-table length.  The source only enters
the copy when the parameter array is defined, and then presumes the batch-id
array is defined as well. -/
structure CopyKindRes where
  arr : Option TArr
  ids : Option TArr
  fresh : Nat
  len : Nat

/-- One `if (defined(geometries._xs)) { xs = xs.slice(); xsBatchIds =
xsBatchIds.slice(); length += xsBatchIds.length; }` block of the packing
step. -/
def copyKind (a : Option TArr) (ids : Option TArr) (f : Nat) : CopyKindRes :=
  match a with
  | none => ⟨a, ids, f, 0⟩
  | some arr =>
    let idsArr := ids.getD ⟨0, []⟩
    ⟨some ⟨f, arr.data⟩, some ⟨f + 1, idsArr.data⟩, f + 2, idsArr.data.length⟩

/-- The local variables of `createPrimitive` that feed the scheduled task's
`parameters` object. -/
structure GeomLocals where
  boxes : Option TArr
  boxBatchIds : Option TArr
  cylinders : Option TArr
  cylinderBatchIds : Option TArr
  ellipsoids : Option TArr
  ellipsoidBatchIds : Option TArr
  spheres : Option TArr
  sphereBatchIds : Option TArr
  batchTableColors : TArr
  packedBuffer : List Int
deriving DecidableEq

/-- The copy-and-pack block of `createPrimitive` (source lines 237–272),
entered when `_batchTableColors` is still undefined.  Each populated kind's
arrays are sliced and written back to the instance fields and the locals.
NOTE the source's line 258 writes the sphere copy to `geometries._sphere`
(not `_spheres`): the embedding reproduces that, so the `spheres` field
keeps its old value while the stray `sphere` field and the local receive the
copy.  Then the per-shape color table is built from
`batchTable.getColor(i).toRgba()` for `i < length`, and the context buffer
is packed from `_center` and `_modelMatrix` (both defined at this point;
`getD` supplies a dummy for totality). -/
def copyStep (g : Vector3DTileGeometry) : Vector3DTileGeometry × GeomLocals :=
  let kb := copyKind g.boxes g.boxBatchIds g.fresh
  let kc := copyKind g.cylinders g.cylinderBatchIds kb.fresh
  let ke := copyKind g.ellipsoids g.ellipsoidBatchIds kc.fresh
  let ks := copyKind g.spheres g.sphereBatchIds ke.fresh
  let length := kb.len + kc.len + ke.len + ks.len
  let batchTableColors : TArr :=
    ⟨ks.fresh, (List.range length).map (fun i => ((g.batchTable.getD []).getD i 0 : Int))⟩
  let packed := packBuffer (g.center.getD ⟨0, 0, 0⟩) (g.modelMatrix.getD [])
  ({ g with
      boxes := kb.arr
      boxBatchIds := kb.ids
      cylinders := kc.arr
      cylinderBatchIds := kc.ids
      ellipsoids := ke.arr
      ellipsoidBatchIds := ke.ids
      sphere := ks.arr
      sphereBatchIds := ks.ids
      batchTableColors := some batchTableColors
      packedBuffer := some packed
      fresh := ks.fresh + 1 },
   { boxes := kb.arr
     boxBatchIds := kb.ids
     cylinders := kc.arr
     cylinderBatchIds := kc.ids
     ellipsoids := ke.arr
     ellipsoidBatchIds := ke.ids
     spheres := ks.arr
     sphereBatchIds := ks.ids
     batchTableColors := batchTableColors
     packedBuffer := packed })

/-- The locals of `createPrimitive` when the copy block is skipped (a retry
after backpressure): they are read straight from the instance fields. -/
def fieldLocals (g : Vector3DTileGeometry) : GeomLocals where
  boxes := g.boxes
  boxBatchIds := g.boxBatchIds
  cylinders := g.cylinders
  cylinderBatchIds := g.cylinderBatchIds
  ellipsoids := g.ellipsoids
  ellipsoidBatchIds := g.ellipsoidBatchIds
  spheres := g.spheres
  sphereBatchIds := g.sphereBatchIds
  batchTableColors := g.batchTableColors.getD ⟨0, []⟩
  packedBuffer := g.packedBuffer.getD []

/-- The `parameters` object submitted to
`createVerticesTaskProcessor.scheduleTask` (source lines 289–304); each
batch-id entry is passed only when its shape array is defined. -/
structure SubmittedRequest where
  boxes : Option TArr
  boxBatchIds : Option TArr
  cylinders : Option TArr
  cylinderBatchIds : Option TArr
  ellipsoids : Option TArr
  ellipsoidBatchIds : Option TArr
  spheres : Option TArr
  sphereBatchIds : Option TArr
  batchTableColors : TArr
  packedBuffer : List Int
deriving DecidableEq

def mkRequest (l : GeomLocals) : SubmittedRequest where
  boxes := l.boxes
  boxBatchIds := if l.boxes.isSome then l.boxBatchIds else none
  cylinders := l.cylinders
  cylinderBatchIds := if l.cylinders.isSome then l.cylinderBatchIds else none
  ellipsoids := l.ellipsoids
  ellipsoidBatchIds := if l.ellipsoids.isSome then l.ellipsoidBatchIds else none
  spheres := l.spheres
  sphereBatchIds := if l.spheres.isSome then l.sphereBatchIds else none
  batchTableColors := l.batchTableColors
  packedBuffer := l.packedBuffer

/-- Outcome of one `createPrimitive(geometries)` call: the mutated state,
the request submitted to the task processor during this call (if any), and
whether the call returned a defined promise (the `.then/.catch` chain) —
which is what `update` stores into `this._promise`. -/
structure CPRes where
  state : Vector3DTileGeometry
  request : Option SubmittedRequest
  promiseReturned : Bool

/-- `createPrimitive(geometries)` (source lines 219–351): no-op once the
primitive exists or while a decode request is outstanding; otherwise run the
copy/pack block when `_batchTableColors` is undefined, build the parameters
from the locals, and submit.  `schedulerAccepts` models whether
`scheduleTask` returns a promise or `undefined` (backpressure); on
backpressure `_verticesPromise` is the assigned `undefined` and the call
returns `undefined`. -/
def createPrimitive (g : Vector3DTileGeometry) (schedulerAccepts : Bool) : CPRes :=
  if g.primitive.isSome then ⟨g, none, false⟩
  else if g.verticesPromiseDefined then ⟨g, none, false⟩
  else
    let stepRes := if g.batchTableColors.isNone then copyStep g else (g, fieldLocals g)
    let g1 := stepRes.1
    let params := mkRequest stepRes.2
    if schedulerAccepts then ⟨{ g1 with verticesPromiseDefined := true }, some params, true⟩
    else ⟨{ g1 with verticesPromiseDefined := false }, none, false⟩

/-- Outcome of one `update(frameState)` call: the new state, the error the
call throws (if any), and the request submitted during the call (if any). -/
structure UpdRes where
  state : Vector3DTileGeometry
  thrown : Option Nat
  request : Option SubmittedRequest

/-- `Vector3DTileGeometry.prototype.update` (source lines 448–467): while
not ready, assign `this._promise = createPrimitive(this)` when `_promise`
is still undefined, then throw a stored decode error exactly once (clearing
it first); once ready, delegate per-frame work to the primitive (a no-op on
the modelled state). -/
def Vector3DTileGeometry.update (g : Vector3DTileGeometry) (schedulerAccepts : Bool) :
    UpdRes :=
  if g.ready then ⟨g, none, none⟩
  else
    let c : CPRes :=
      if g.promiseDefined then ⟨g, none, false⟩
      else
        let r := createPrimitive g schedulerAccepts
        ⟨{ r.state with promiseDefined := r.promiseReturned }, r.request, r.promiseReturned⟩
    match c.state.error with
    | some e => ⟨{ c.state with error := none }, some e, c.request⟩
    | none => ⟨c.state, none, c.request⟩

/-- `finishPrimitive(geometries)` (source lines 353–400): construct the
primitive exactly once from the unpacked fields, then release every
intermediate field and the outstanding-request marker.  (The stray `_sphere`
field is not among the released fields.) -/
def finishPrimitive (g : Vector3DTileGeometry) : Vector3DTileGeometry :=
  if g.primitive.isSome then g
  else
    { g with
      primitive := some
        { batchTable := g.batchTable
          positions := g.positions
          batchIds := g.batchIds
          vertexBatchIds := g.vertexBatchIds
          indices := g.indices
          indexOffsets := g.indexOffsets
          indexCounts := g.indexCounts
          batchedIndices := g.batchedIndices
          boundingVolume := g.boundingVolume
          boundingVolumes := g.boundingVolumes
          center := g.center }
      boxes := none
      boxBatchIds := none
      cylinders := none
      cylinderBatchIds := none
      ellipsoids := none
      ellipsoidBatchIds := none
      spheres := none
      sphereBatchIds := none
      center := none
      modelMatrix := none
      batchTable := none
      boundingVolume := none
      boundingVolumes := none
      batchedIndices := none
      indices := none
      indexOffsets := none
      indexCounts := none
      positions := none
      vertexBatchIds := none
      batchIds := none
      batchTableColors := none
      packedBuffer := none
      verticesPromiseDefined := false }

/-- The payload with which the decode task's promise resolves. -/
structure WorkerResult where
  packedBuffer : List Int
  indices : List Nat
  indexOffsets : List Nat
  indexCounts : List Nat
  positions : List Int
  vertexBatchIds : List Nat
  batchIds : List Nat
deriving DecidableEq

/-- The `.then` handler of the decode promise (source lines 317–342): drop
the result when the content was destroyed meanwhile; otherwise unpack the
result buffer, install the typed views (index width 2 or 4 chosen by the
unpacked flag), build the primitive and set `_ready`. -/
def deliverResolve (g : Vector3DTileGeometry) (result : WorkerResult) :
    Vector3DTileGeometry :=
  if g.destroyed then g
  else
    let up := unpackBuffer result.packedBuffer
    let g1 := { g with
      boundingVolumes := some up.2.1
      batchedIndices := some up.2.2
      indices := some (if up.1 = 2 then ((2 : Nat), result.indices) else ((4 : Nat), result.indices))
      indexOffsets := some result.indexOffsets
      indexCounts := some result.indexCounts
      positions := some result.positions
      vertexBatchIds := some result.vertexBatchIds
      batchIds := some result.batchIds }
    let g2 := finishPrimitive g1
    { g2 with ready := true }

/-- The `.catch` handler of the decode promise (source lines 343–349): drop
the rejection when destroyed, else store the error for the next `update`. -/
def deliverReject (g : Vector3DTileGeometry) (e : Nat) : Vector3DTileGeometry :=
  if g.destroyed then g else { g with error := some e }

/-- `Vector3DTileGeometry.prototype.destroy` (source lines 493–496): destroy
the primitive if present and mark the object destroyed (`destroyObject`). -/
def Vector3DTileGeometry.destroy (g : Vector3DTileGeometry) : Vector3DTileGeometry :=
  { g with primitive := none, destroyed := true }

/-- Events a vector-geometry content can experience after construction: an
`update` call (with the scheduler accepting or backpressuring), the decode
promise settling, or destruction. -/
inductive VGAct where
  | upd (schedulerAccepts : Bool)
  | resolve (result : WorkerResult)
  | reject (e : Nat)
  | destroyA

/-- One event step, yielding the new state, any error thrown, and any
request submitted. -/
def VGAct.step (g : Vector3DTileGeometry) :
    VGAct → Vector3DTileGeometry × Option Nat × Option SubmittedRequest
  | .upd s => let r := Vector3DTileGeometry.update g s; (r.state, r.thrown, r.request)
  | .resolve result => (deliverResolve g result, none, none)
  | .reject e => (deliverReject g e, none, none)
  | .destroyA => (Vector3DTileGeometry.destroy g, none, none)

/-- Run a sequence of events, collecting thrown errors and submitted
requests in order. -/
def VGAct.run (g : Vector3DTileGeometry) :
    List VGAct → Vector3DTileGeometry × List (Option Nat) × List SubmittedRequest
  | [] => (g, [], [])
  | a :: rest =>
    let s := VGAct.step g a
    let r := VGAct.run s.1 rest
    (r.1, s.2.1 :: r.2.1, (match s.2.2 with | some q => q :: r.2.2 | none => r.2.2))

theorem copyStep_fst_ready (g : Vector3DTileGeometry) : (copyStep g).1.ready = g.ready := rfl

theorem copyStep_fst_promiseDefined (g : Vector3DTileGeometry) :
    (copyStep g).1.promiseDefined = g.promiseDefined := rfl

theorem copyStep_fst_primitive (g : Vector3DTileGeometry) :
    (copyStep g).1.primitive = g.primitive := rfl

theorem copyStep_fst_error (g : Vector3DTileGeometry) :
    (copyStep g).1.error = g.error := rfl

/-- While `_promise` is already defined, `update` is the ready no-op, or the
throw-once error surface, or a plain no-op: `createPrimitive` is not called. -/
theorem update_of_promiseDefined (g : Vector3DTileGeometry) (s : Bool)
    (h : g.promiseDefined = true) :
    Vector3DTileGeometry.update g s =
      if g.ready then ⟨g, none, none⟩
      else
        match g.error with
        | some e => ⟨{ g with error := none }, some e, none⟩
        | none => ⟨g, none, none⟩ := by
  unfold Vector3DTileGeometry.update
  conv_lhs => rw [h]
  rfl

/-- A non-ready content with a defined `_promise` and no stored error is
inert under `update`. -/
theorem update_stuck (w : Vector3DTileGeometry) (s : Bool)
    (h1 : w.ready = false) (h2 : w.promiseDefined = true) (h3 : w.error = none) :
    Vector3DTileGeometry.update w s = ⟨w, none, none⟩ := by
  rw [update_of_promiseDefined w s h2, h1, h3]
  rfl

theorem run_upd_stuck (w : Vector3DTileGeometry)
    (h1 : w.ready = false) (h2 : w.promiseDefined = true) (h3 : w.error = none) :
    ∀ scheds : List Bool,
      VGAct.run w (scheds.map VGAct.upd) = (w, scheds.map (fun _ => none), []) := by
  intro scheds
  induction scheds with
  | nil => rfl
  | cons s t ih =>
    show VGAct.run w (VGAct.upd s :: t.map VGAct.upd) = _
    simp only [VGAct.run, VGAct.step, update_stuck w s h1 h2 h3, ih, List.map_cons]

theorem deliverResolve_promiseDefined (g : Vector3DTileGeometry) (r : WorkerResult) :
    (deliverResolve g r).promiseDefined = g.promiseDefined := by
  unfold deliverResolve finishPrimitive
  split
  · rfl
  · dsimp only
    split <;> rfl

theorem deliverReject_promiseDefined (g : Vector3DTileGeometry) (e : Nat) :
    (deliverReject g e).promiseDefined = g.promiseDefined := by
  unfold deliverReject
  split <;> rfl

theorem update_of_promiseDefined_parts (g : Vector3DTileGeometry) (s : Bool)
    (h : g.promiseDefined = true) :
    (Vector3DTileGeometry.update g s).request = none
    ∧ (Vector3DTileGeometry.update g s).state.promiseDefined = true := by
  rw [update_of_promiseDefined g s h]
  by_cases hr : g.ready
  · simp [hr, h]
  · simp only [hr, if_false, Bool.false_eq_true]
    cases he : g.error <;> simp [he, h]

/-- Once `_promise` is defined, no event sequence — further updates, late
promise settlement, destruction — ever submits another decode request, and
`_promise` stays defined. -/
theorem run_no_request : ∀ (acts : List VGAct) (g : Vector3DTileGeometry),
    g.promiseDefined = true →
    (VGAct.run g acts).2.2 = [] ∧ (VGAct.run g acts).1.promiseDefined = true := by
  intro acts
  induction acts with
  | nil => intro g hg; exact ⟨rfl, hg⟩
  | cons a t ih =>
    intro g hg
    match a with
    | .upd s =>
      obtain ⟨hreq, hpd⟩ := update_of_promiseDefined_parts g s hg
      have := ih (Vector3DTileGeometry.update g s).state hpd
      simp only [VGAct.run, VGAct.step, hreq]
      exact this
    | .resolve r =>
      have hpd : (deliverResolve g r).promiseDefined = true := by
        rw [deliverResolve_promiseDefined]; exact hg
      have := ih (deliverResolve g r) hpd
      simpa only [VGAct.run, VGAct.step] using this
    | .reject e =>
      have hpd : (deliverReject g e).promiseDefined = true := by
        rw [deliverReject_promiseDefined]; exact hg
      have := ih (deliverReject g e) hpd
      simpa only [VGAct.run, VGAct.step] using this
    | .destroyA =>
      have := ih (Vector3DTileGeometry.destroy g) hg
      simpa only [VGAct.run, VGAct.step] using this

/-- An unstarted content (no primitive, no outstanding request, no promise):
`update` with the scheduler backpressuring submits nothing and leaves the
content unstarted; `update` with the scheduler accepting submits a request
and defines `_promise`. -/
theorem update_unstarted (g : Vector3DTileGeometry)
    (hr : g.ready = false) (hp : g.promiseDefined = false)
    (hprim : g.primitive = none) (hv : g.verticesPromiseDefined = false) :
    (Vector3DTileGeometry.update g true).request.isSome = true
    ∧ (Vector3DTileGeometry.update g true).state.promiseDefined = true
    ∧ (Vector3DTileGeometry.update g false).request = none
    ∧ (Vector3DTileGeometry.update g false).state.ready = false
    ∧ (Vector3DTileGeometry.update g false).state.promiseDefined = false
    ∧ (Vector3DTileGeometry.update g false).state.primitive = none
    ∧ (Vector3DTileGeometry.update g false).state.verticesPromiseDefined = false := by
  have hcp : ∀ s : Bool, createPrimitive g s =
      (if s then
        ⟨{ (if g.batchTableColors.isNone then copyStep g else (g, fieldLocals g)).1 with
            verticesPromiseDefined := true },
          some (mkRequest (if g.batchTableColors.isNone then copyStep g
            else (g, fieldLocals g)).2), true⟩
      else
        ⟨{ (if g.batchTableColors.isNone then copyStep g else (g, fieldLocals g)).1 with
            verticesPromiseDefined := false }, none, false⟩) := by
    intro s
    unfold createPrimitive
    rw [hprim, hv]
    rfl
  unfold Vector3DTileGeometry.update
  rw [hr, hp]
  simp only [Bool.false_eq_true, if_false]
  rw [hcp true, hcp false]
  by_cases hb : g.batchTableColors.isNone
  · simp only [hb, if_true, if_pos]
    cases he : (copyStep g).1.error <;>
      simp [he, copyStep_fst_ready, copyStep_fst_promiseDefined, copyStep_fst_primitive, hr, hp,
        hprim]
  · simp only [hb, if_false, Bool.false_eq_true]
    cases he : g.error <;> simp [he, hr, hp, hprim]

/-- C4: per content instance at most one decode request is ever outstanding.
Once `update` has successfully submitted (`_promise` defined), no event
sequence of further updates, promise settlements or destruction submits a
second request; an `update` that does emit a request leaves `_promise`
defined; and when submission was deferred by backpressure, nothing was
submitted, the content stays unstarted, and the next `update` with a free
scheduler slot retries and submits. -/
theorem vg_single_outstanding_request (g u : Vector3DTileGeometry) (acts : List VGAct)
    (s : Bool) (hg : g.promiseDefined = true)
    (hu1 : u.ready = false) (hu2 : u.promiseDefined = false)
    (hu3 : u.primitive = none) (hu4 : u.verticesPromiseDefined = false) :
    (VGAct.run g acts).2.2 = []
    ∧ ((Vector3DTileGeometry.update u s).request.isSome = true →
        (Vector3DTileGeometry.update u s).state.promiseDefined = true)
    ∧ (Vector3DTileGeometry.update u false).request = none
    ∧ (Vector3DTileGeometry.update
        ((Vector3DTileGeometry.update u false).state) true).request.isSome = true := by
  obtain ⟨ha1, ha2, hb1, hb2, hb3, hb4, hb5⟩ := update_unstarted u hu1 hu2 hu3 hu4
  refine ⟨(run_no_request acts g hg).1, ?_, hb1, ?_⟩
  · intro hsome
    cases s with
    | false => rw [hb1] at hsome; cases hsome
    | true => exact ha2
  · exact (update_unstarted _ hb2 hb3 hb4 hb5).1

def c4SubmittedState : Vector3DTileGeometry :=
  { Vector3DTileGeometry.init { boxes := some ⟨0, [1]⟩, boxBatchIds := some ⟨1, [0]⟩ } with
      promiseDefined := true, verticesPromiseDefined := true }

def c4UnstartedState : Vector3DTileGeometry :=
  Vector3DTileGeometry.init { boxes := some ⟨0, [1]⟩, boxBatchIds := some ⟨1, [0]⟩ }

/-- Witness for C4 at a concrete submitted state, a concrete unstarted
state, and a concrete event sequence. -/
theorem vg_single_outstanding_request_witness :
    (VGAct.run c4SubmittedState
        [.upd true, .reject 3, .upd false, .resolve ⟨[], [], [], [], [], [], []⟩,
         .upd true, .destroyA]).2.2 = []
    ∧ ((Vector3DTileGeometry.update c4UnstartedState true).request.isSome = true →
        (Vector3DTileGeometry.update c4UnstartedState true).state.promiseDefined = true)
    ∧ (Vector3DTileGeometry.update c4UnstartedState false).request = none
    ∧ (Vector3DTileGeometry.update
        ((Vector3DTileGeometry.update c4UnstartedState false).state) true).request.isSome =
        true :=
  vg_single_outstanding_request c4SubmittedState c4UnstartedState
    [.upd true, .reject 3, .upd false, .resolve ⟨[], [], [], [], [], [], []⟩,
     .upd true, .destroyA]
    true rfl rfl rfl rfl rfl

/-- C3: after the decode request rejects (and the content is not destroyed),
the very next `update` throws the stored error exactly once — the error
field is cleared — and every later `update`, whatever the scheduler does,
throws nothing, changes nothing, and leaves the content non-ready forever. -/
theorem vg_reject_error_raised_once (g : Vector3DTileGeometry) (e : Nat) (s : Bool)
    (scheds : List Bool)
    (h1 : g.ready = false) (h2 : g.promiseDefined = true) (h3 : g.error = some e) :
    (Vector3DTileGeometry.update g s).thrown = some e
    ∧ (Vector3DTileGeometry.update g s).state = { g with error := none }
    ∧ (VGAct.run (Vector3DTileGeometry.update g s).state (scheds.map VGAct.upd)).1 =
        { g with error := none }
    ∧ (∀ t ∈ (VGAct.run (Vector3DTileGeometry.update g s).state
        (scheds.map VGAct.upd)).2.1, t = none)
    ∧ (VGAct.run (Vector3DTileGeometry.update g s).state
        (scheds.map VGAct.upd)).1.ready = false := by
  have hupd : Vector3DTileGeometry.update g s = ⟨{ g with error := none }, some e, none⟩ := by
    rw [update_of_promiseDefined g s h2, h1, h3]
    rfl
  have hrun := run_upd_stuck { g with error := none } h1 h2 rfl scheds
  rw [hupd]
  refine ⟨rfl, rfl, ?_, ?_, ?_⟩
  · simpa using congrArg Prod.fst hrun
  · intro t ht
    simp only [hrun] at ht
    obtain ⟨b, -, hb⟩ := List.mem_map.mp ht
    exact hb.symm
  · rw [show (VGAct.run { g with error := none } (scheds.map VGAct.upd)).1 =
        { g with error := none } from by simpa using congrArg Prod.fst hrun]
    exact h1

def c3RejectedState : Vector3DTileGeometry :=
  deliverReject
    { Vector3DTileGeometry.init { boxes := some ⟨0, [1]⟩, boxBatchIds := some ⟨1, [0]⟩ } with
        promiseDefined := true, verticesPromiseDefined := true } 7

/-- Witness for C3 at a concrete post-rejection state. -/
theorem vg_reject_error_raised_once_witness :
    (Vector3DTileGeometry.update c3RejectedState true).thrown = some 7
    ∧ (Vector3DTileGeometry.update c3RejectedState true).state =
        { c3RejectedState with error := none }
    ∧ (VGAct.run (Vector3DTileGeometry.update c3RejectedState true).state
        ([true, false, true].map VGAct.upd)).1 = { c3RejectedState with error := none }
    ∧ (∀ t ∈ (VGAct.run (Vector3DTileGeometry.update c3RejectedState true).state
        ([true, false, true].map VGAct.upd)).2.1, t = none)
    ∧ (VGAct.run (Vector3DTileGeometry.update c3RejectedState true).state
        ([true, false, true].map VGAct.upd)).1.ready = false :=
  vg_reject_error_raised_once c3RejectedState 7 true [true, false, true] rfl rfl rfl

/-- C8: delivery of the decode result — resolution or rejection — to a
destroyed content changes nothing: no field is mutated, no primitive is
constructed, `isDestroyed()` stays true; and `destroy()` itself marks the
content destroyed with no primitive. -/
theorem vg_destroyed_discards_late_result (g : Vector3DTileGeometry) (r : WorkerResult)
    (e : Nat) (h : g.destroyed = true) :
    deliverResolve g r = g
    ∧ deliverReject g e = g
    ∧ (deliverResolve g r).primitive = g.primitive
    ∧ (deliverResolve g r).destroyed = true
    ∧ (∀ g0 : Vector3DTileGeometry, (Vector3DTileGeometry.destroy g0).destroyed = true
        ∧ (Vector3DTileGeometry.destroy g0).primitive = none) := by
  have h1 : deliverResolve g r = g := by unfold deliverResolve; rw [h]; rfl
  have h2 : deliverReject g e = g := by unfold deliverReject; rw [h]; rfl
  exact ⟨h1, h2, by rw [h1], by rw [h1]; exact h, fun g0 => ⟨rfl, rfl⟩⟩

def c8DestroyedState : Vector3DTileGeometry :=
  Vector3DTileGeometry.destroy
    ({ Vector3DTileGeometry.init { boxes := some ⟨0, [1]⟩, boxBatchIds := some ⟨1, [0]⟩ } with
        promiseDefined := true, verticesPromiseDefined := true })

/-- Witness for C8 at a concrete content destroyed while its request was
outstanding. -/
theorem vg_destroyed_discards_late_result_witness :
    deliverResolve c8DestroyedState ⟨[2, 0, 0], [], [], [], [], [], []⟩ = c8DestroyedState
    ∧ deliverReject c8DestroyedState 9 = c8DestroyedState
    ∧ (deliverResolve c8DestroyedState ⟨[2, 0, 0], [], [], [], [], [], []⟩).primitive =
        c8DestroyedState.primitive
    ∧ (deliverResolve c8DestroyedState ⟨[2, 0, 0], [], [], [], [], [], []⟩).destroyed = true
    ∧ (∀ g0 : Vector3DTileGeometry, (Vector3DTileGeometry.destroy g0).destroyed = true
        ∧ (Vector3DTileGeometry.destroy g0).primitive = none) :=
  vg_destroyed_discards_late_result c8DestroyedState ⟨[2, 0, 0], [], [], [], [], [], []⟩ 9 rfl

/-- C9: packing the context (RTC center, 3 components, then the model
matrix, 16 components) into the fixed-layout double buffer and unpacking it
returns exactly the original center and matrix. -/
theorem packContext_roundtrip (center : Cart3) (m : List Int) (h : m.length = 16) :
    unpackContext (packBuffer center m) = (center, m) := by
  cases center with
  | mk cx cy cz =>
    unfold unpackContext packBuffer
    refine congrArg₂ Prod.mk rfl ?_
    show m.take 16 = m
    rw [← h, List.take_length]

/-- Witness for C9 at a concrete center and matrix. -/
theorem packContext_roundtrip_witness :
    unpackContext (packBuffer ⟨1, 2, 3⟩
      [10, 11, 12, 13, 14, 15, 16, 17, 18, 19, 20, 21, 22, 23, 24, 25]) =
      (⟨1, 2, 3⟩, [10, 11, 12, 13, 14, 15, 16, 17, 18, 19, 20, 21, 22, 23, 24, 25]) :=
  packContext_roundtrip ⟨1, 2, 3⟩
    [10, 11, 12, 13, 14, 15, 16, 17, 18, 19, 20, 21, 22, 23, 24, 25] (by decide)

def c2Input : Vector3DTileGeometry :=
  Vector3DTileGeometry.init
    { spheres := some ⟨10, [5, 5, 5]⟩
      sphereBatchIds := some ⟨11, [0]⟩
      boxes := some ⟨12, [1]⟩
      boxBatchIds := some ⟨13, [0]⟩
      center := some ⟨1, 2, 3⟩
      modelMatrix := some [1, 0, 0, 0, 0, 1, 0, 0, 0, 0, 1, 0, 0, 0, 0, 1]
      batchTable := some [9]
      fresh := 20 }

/-- C2 (divergence witness): in the packing step the box branch stores its
copy back into `_boxes` (fresh id 20) and the submitted sphere array is the
copy (fresh id 22) — but line 258 assigns that sphere copy to the stray
field `_sphere`, so the content's `_spheres` field still holds the caller's
original array (id 10), an alias; and on a retry after backpressure the
copy block is skipped, so the aliased original (id 10) is what gets
submitted (and transferred) to the worker. -/
theorem vg_sphere_copy_typo :
    (Vector3DTileGeometry.update c2Input true).state.spheres = some ⟨10, [5, 5, 5]⟩
    ∧ (Vector3DTileGeometry.update c2Input true).state.sphere = some ⟨22, [5, 5, 5]⟩
    ∧ (Vector3DTileGeometry.update c2Input true).state.boxes = some ⟨20, [1]⟩
    ∧ (Vector3DTileGeometry.update c2Input true).request.map
        (fun q => q.spheres) = some (some ⟨22, [5, 5, 5]⟩)
    ∧ (Vector3DTileGeometry.update
          ((Vector3DTileGeometry.update c2Input false).state) true).request.map
        (fun q => q.spheres) = some (some ⟨10, [5, 5, 5]⟩) := by
  refine ⟨rfl, rfl, rfl, rfl, rfl⟩

end Cesium
